import Mathlib

/-!
Verification development for the pdf_to_latex repository (two modules:
pdf_to_latex.py, a text-structure classifier and LaTeX emitter, and
tex_to_pdf.py, a multi-pass LaTeX compilation driver).

The Python code is shallowly embedded: strings are Lean Strings, Python
lists are Lean Lists, the per-pass external process is an abstract input
function, and exceptions become explicit outcome constructors. Character
classes (whitespace, case) are modelled at ASCII level, which covers all
inputs the development evaluates.
-/

/-! ### String utilities mirroring the Python primitives used by the code -/

/-- Whitespace recognised by Python's default str.strip and the regex class
backslash-s (ASCII subset). -/
def py_isspace (c : Char) : Bool :=
  c = ' ' || c = '\t' || c = '\n' || c = '\r' || c = '\x0b' || c = '\x0c'

/-- Model of Python str.strip(): remove leading and trailing whitespace. -/
def strip_str (s : String) : String :=
  String.mk (((s.data.dropWhile py_isspace).reverse.dropWhile py_isspace).reverse)

/-- Model of Python str.lower() (ASCII case mapping). -/
def str_lower (s : String) : String :=
  String.mk (s.data.map Char.toLower)

/-- Model of Python str.startswith. -/
def starts_with (s pat : String) : Bool :=
  pat.data.isPrefixOf s.data

/-- Model of Python str.endswith. -/
def ends_with (s pat : String) : Bool :=
  pat.data.isSuffixOf s.data

/-- Substring search on character lists: pat occurs contiguously in l. -/
def infix_chars (pat : List Char) : List Char → Bool
  | [] => pat.isEmpty
  | l@(_ :: rest) => pat.isPrefixOf l || infix_chars pat rest

/-- Model of the Python membership test pat in s on strings. -/
def contains_sub (s pat : String) : Bool :=
  infix_chars pat.data s.data

/-- Model of Python text.split of one newline character: split a string at
every newline, keeping empty segments (the empty string yields one empty
segment, as in Python). -/
def split_chars_nl : List Char → List (List Char)
  | [] => [[]]
  | c :: cs =>
    match split_chars_nl cs with
    | [] => [[]]
    | l :: ls => if c = '\n' then [] :: l :: ls else (c :: l) :: ls

/-- String-level wrapper of split_chars_nl. -/
def split_nl (s : String) : List String :=
  (split_chars_nl s.data).map String.mk

/-- Model of Python newline.join(lines). -/
def join_nl : List String → String
  | [] => ""
  | [l] => l
  | l :: ls => l ++ "\n" ++ join_nl ls

/-- Replace every occurrence of the single character c in a character list by
the replacement list; models Python str.replace for a one-character needle,
which is the only form pdf_to_latex.py uses. -/
def replace_all (c : Char) (repl : List Char) : List Char → List Char
  | [] => []
  | x :: xs => (if x = c then repl else [x]) ++ replace_all c repl xs

/-! ### pdf_to_latex.py: escape table, classifier, emitter -/

/-- The substitution table of PDFToLaTeXConverter.latex_special_chars
(pdf_to_latex.py lines 29-40), in Python dict insertion order. Every key is
a one-character string, modelled as a Char. -/
def latex_special_chars : List (Char × String) :=
  [('&', "\\&"),
   ('%', "\\%"),
   ('$', "\\$"),
   ('#', "\\#"),
   ('^', "\\textasciicircum\x7b\x7d"),
   ('_', "\\_"),
   ('\x7b', "\\\x7b"),
   ('\x7d', "\\\x7d"),
   ('~', "\\textasciitilde\x7b\x7d"),
   ('\\', "\\textbackslash\x7b\x7d")]

/-- Model of escape_latex (pdf_to_latex.py lines 42-46): successive
str.replace over the table in its iteration order. -/
def escape_latex (text : String) : String :=
  String.mk (latex_special_chars.foldl (fun t p => replace_all p.1 p.2.data t) text.data)

/-- Model of Python str.isupper at ASCII level: at least one cased character
and no lower-case character. -/
def is_upper_str (s : String) : Bool :=
  s.data.any (fun c => c.isUpper || c.isLower) && s.data.all (fun c => !c.isLower)

/-- Model of is_title (pdf_to_latex.py lines 87-94). The all_lines parameter
is present in the source and unused there, exactly as here. -/
def is_title (line : String) (all_lines : List String) : Bool :=
  if line.length < 50 && is_upper_str line then true
  else if contains_sub line "App" || contains_sub line "System" || contains_sub line "Project" then true
  else false

/-- The keyword list of is_section_heading (pdf_to_latex.py line 98). -/
def section_keywords : List String :=
  ["Summary", "Features", "Introduction", "Overview",
   "Requirements", "Implementation", "Conclusion"]

/-- Model of is_section_heading (pdf_to_latex.py lines 96-100). -/
def is_section_heading (line : String) : Bool :=
  (section_keywords.any (fun kw => contains_sub (str_lower line) (str_lower kw)))
    && line.length < 50

/-- Model of is_subsection_heading (pdf_to_latex.py lines 102-107). -/
def is_subsection_heading (line : String) : Bool :=
  ends_with line ":" && line.length < 80

/-- Model of is_primary_bullet (pdf_to_latex.py lines 109-111). -/
def is_primary_bullet (line : String) : Bool :=
  starts_with line "●" || starts_with line "•" || starts_with line "- "

/-- Model of is_secondary_bullet (pdf_to_latex.py lines 113-115). -/
def is_secondary_bullet (line : String) : Bool :=
  starts_with line "○" || starts_with line "  ○" || starts_with line "    ○"

/-- The bullet glyph class of the clean_bullet_text regex. -/
def is_bullet_char (c : Char) : Bool :=
  c = '●' || c = '•' || c = '○' || c = '-'

/-- Model of clean_bullet_text (pdf_to_latex.py lines 117-121): the anchored
regex removes a leading run of whitespace, one bullet glyph, and following
whitespace, when such a match exists; then the result is stripped. -/
def clean_bullet_text (line : String) : String :=
  match line.data.dropWhile py_isspace with
  | c :: cs =>
    if is_bullet_char c then strip_str (String.mk (cs.dropWhile py_isspace))
    else strip_str line
  | [] => strip_str line

/-- One iteration of the classification chain in identify_structure
(pdf_to_latex.py lines 72-83), applied to an already-stripped non-empty
line; the second argument is the all-lines context handed to is_title. -/
def classify_line (line : String) (all_lines : List String) : String × String :=
  if is_title line all_lines then ("title", line)
  else if is_section_heading line then ("section", line)
  else if is_subsection_heading line then ("subsection", line)
  else if is_primary_bullet line then ("bullet1", clean_bullet_text line)
  else if is_secondary_bullet line then ("bullet2", clean_bullet_text line)
  else ("paragraph", line)

/-- Model of identify_structure (pdf_to_latex.py lines 61-85): split the text
at newlines, strip each line, skip empty results, and classify the rest in
order. -/
def identify_structure (text : String) : List (String × String) :=
  let lines := split_nl text
  lines.foldl
    (fun acc line =>
      let l := strip_str line
      if l = "" then acc else acc ++ [classify_line l lines])
    []

/-- The begin-itemize line emitted by convert_to_latex. -/
def begin_itemize : String := "\\begin\x7bitemize\x7d"

/-- The end-itemize line emitted by convert_to_latex. -/
def end_itemize : String := "\\end\x7bitemize\x7d"

/-- The fixed document header of convert_to_latex (pdf_to_latex.py
lines 128-137). -/
def latex_header : List String :=
  ["\\documentclass[11pt,a4paper]\x7barticle\x7d",
   "\\usepackage[utf8]\x7binputenc\x7d",
   "\\usepackage[T1]\x7bfontenc\x7d",
   "\\usepackage\x7bgeometry\x7d",
   "\\usepackage\x7benumitem\x7d",
   "\\usepackage\x7bparskip\x7d",
   "\\geometry\x7bmargin=1in\x7d",
   "",
   "\\begin\x7bdocument\x7d",
   ""]

/-- The body loop of convert_to_latex (pdf_to_latex.py lines 139-211),
threading the in_itemize and in_subitemize flags and, at the end of the
sequence, closing the secondary then the primary list if still open. -/
def emit_body : List (String × String) → Bool → Bool → List String
  | [], in_itemize, in_subitemize =>
    (if in_subitemize then [end_itemize] else [])
      ++ (if in_itemize then [end_itemize] else [])
  | (content_type, content) :: rest, in_itemize, in_subitemize =>
    let escaped_content := escape_latex content
    if content_type = "title" then
      ("\\title\x7b" ++ escaped_content ++ "\x7d") :: "\\maketitle" :: ""
        :: emit_body rest in_itemize in_subitemize
    else if content_type = "section" then
      ((if in_subitemize then [end_itemize] else [])
        ++ (if in_itemize then [end_itemize] else []))
        ++ ("\\section\x7b" ++ escaped_content ++ "\x7d") :: ""
        :: emit_body rest false false
    else if content_type = "subsection" then
      ((if in_subitemize then [end_itemize] else [])
        ++ (if in_itemize then [end_itemize] else []))
        ++ ("\\subsection\x7b" ++ escaped_content ++ "\x7d") :: ""
        :: emit_body rest false false
    else if content_type = "bullet1" then
      ((if in_subitemize then [end_itemize] else [])
        ++ (if !in_itemize then [begin_itemize] else []))
        ++ ("\\item " ++ escaped_content)
        :: emit_body rest true false
    else if content_type = "bullet2" then
      (if !in_subitemize then [begin_itemize] else [])
        ++ ("\\item " ++ escaped_content)
        :: emit_body rest in_itemize true
    else if content_type = "paragraph" then
      ((if in_subitemize then [end_itemize] else [])
        ++ (if in_itemize then [end_itemize] else []))
        ++ escaped_content :: ""
        :: emit_body rest false false
    else
      emit_body rest in_itemize in_subitemize

/-- The full line list built by convert_to_latex (pdf_to_latex.py
lines 123-215): header, body, then the fixed footer. -/
def convert_to_latex_lines (structured_content : List (String × String)) : List String :=
  latex_header ++ emit_body structured_content false false
    ++ ["", "\\end\x7bdocument\x7d"]

/-- Model of convert_to_latex (pdf_to_latex.py line 217): the line list
joined with newlines. -/
def convert_to_latex (structured_content : List (String × String)) : String :=
  join_nl (convert_to_latex_lines structured_content)

/-! ### tex_to_pdf.py: log parsing and the multi-pass compilation loop -/

/-- The error condition of the log scanner (tex_to_pdf.py line 90): the line
starts with an exclamation mark or contains the text Error: somewhere. -/
def is_error_line (line : String) : Bool :=
  starts_with line "!" || contains_sub line "Error:"

/-- The warning condition of the log scanner (tex_to_pdf.py line 100). -/
def is_warning_line (line : String) : Bool :=
  contains_sub line "Warning:" || starts_with line "LaTeX Warning:"

/-- The context excerpt collected for a fatal line at index i
(tex_to_pdf.py lines 91-97): lines from max(0, i-2) up to but excluding
min(length, i+3), joined with newlines. Natural-number subtraction makes
i - 2 coincide with Python's max(0, i-2). -/
def error_block (lines : List String) (i : Nat) : String :=
  let start := i - 2
  let stop := min lines.length (i + 3)
  join_nl ((lines.drop start).take (stop - start))

/-- The scanning loop of _parse_latex_errors (tex_to_pdf.py lines 84-103),
walking the enumerated lines; i is the index of the head of rest within
lines. -/
def parse_errors_from (lines : List String) : Nat → List String → List String × List String
  | _, [] => ([], [])
  | i, line :: rest =>
    let r := parse_errors_from lines (i + 1) rest
    if is_error_line line then (error_block lines i :: r.1, r.2)
    else if is_warning_line line then (r.1, strip_str line :: r.2)
    else r

/-- Model of _parse_latex_errors (tex_to_pdf.py lines 82-103): split the log
at newlines and collect error blocks and stripped warning lines. -/
def parse_latex_errors (log_content : String) : List String × List String :=
  let lines := split_nl log_content
  parse_errors_from lines 0 lines

/-- The rerun indicator phrases of _needs_multiple_passes (tex_to_pdf.py
lines 107-112). -/
def rerun_indicators : List String :=
  ["Rerun to get cross-references right",
   "Label(s) may have changed",
   "Rerun LaTeX",
   "Table widths have changed"]

/-- Model of _needs_multiple_passes (tex_to_pdf.py lines 105-114). -/
def needs_multiple_passes (log_content : String) : Bool :=
  rerun_indicators.any (fun indicator => contains_sub log_content indicator)

/-- Result of one invocation of the external engine (_run_latex_command,
tex_to_pdf.py lines 54-80): either the five-minute timeout fired, or the
process ran and returned an exit code and stderr text, with the log file
content when a log was produced (tex_to_pdf.py lines 153-160 treat a
missing or unreadable log as empty). -/
inductive PassResult where
  | timeout
  | ran (returncode : Int) (stderrText : String) (logContent : Option String)

/-- Outcome of the pass loop of convert_to_pdf (tex_to_pdf.py
lines 147-184); passesRun is the number of the pass at which the loop
ended. -/
inductive LoopResult where
  | timeoutAbort (passesRun : Nat)
  | failed (errors : List String) (stderrText : String) (passesRun : Nat)
  | completed (passesRun : Nat)

/-- The pass loop of convert_to_pdf (tex_to_pdf.py lines 147-184): on a
nonzero exit code, raise with the parsed error blocks and stderr; on a zero
exit, continue exactly when passes remain and the log asks for a rerun.
The fuel argument counts the remaining loop iterations; the loop is entered
with passNum = 1 and fuel = maxPasses, so fuel only reaches 0 when the
Python range is exhausted (then the for loop simply ends). -/
def pass_loop (run : Nat → PassResult) (maxPasses : Nat) : Nat → Nat → LoopResult
  | passNum, 0 => LoopResult.completed (passNum - 1)
  | passNum, fuel + 1 =>
    match run passNum with
    | PassResult.timeout => LoopResult.timeoutAbort passNum
    | PassResult.ran rc st lg =>
      let log_content := lg.getD ""
      if rc ≠ 0 then
        LoopResult.failed (parse_latex_errors log_content).1 st passNum
      else if passNum < maxPasses && needs_multiple_passes log_content then
        pass_loop run maxPasses (passNum + 1) fuel
      else LoopResult.completed passNum

/-- Outcome of a whole convert_to_pdf call, with the Python exceptions as
explicit constructors (tex_to_pdf.py lines 116-203). -/
inductive ConvOutcome where
  | fileNotFound
  | invalidExtension
  | timeoutFailure
  | compilationFailed (errors : List String) (stderrText : String) (passesRun : Nat)
  | noOutputProduced
  | success (passesRun : Nat)

/-- Modelled from the Python with statement over tempfile.TemporaryDirectory
(tex_to_pdf.py line 133): the scratch directory exists while the body runs
and is removed on every exit from the block, normal or exceptional, so the
final scratch-exists flag is false whatever the body did. The Boolean
threaded through is the scratch-directory-exists flag. -/
def with_temporary_directory (body : Bool → ConvOutcome × Bool) : ConvOutcome × Bool :=
  ((body true).1, false)

/-- Model of convert_to_pdf (tex_to_pdf.py lines 116-203). Inputs abstract
the environment: whether the input file exists, its extension (Python
Path.suffix), the behaviour of the engine on each pass, and whether the PDF
artifact exists in the scratch directory after the loop. The returned
Boolean is the scratch-directory-exists flag after the call. -/
def convert_to_pdf (file_exists : Bool) (suffix : String)
    (run : Nat → PassResult) (pdfProduced : Bool) (maxPasses : Nat) :
    ConvOutcome × Bool :=
  if !file_exists then (ConvOutcome.fileNotFound, false)
  else if !(str_lower suffix == ".tex") then (ConvOutcome.invalidExtension, false)
  else
    with_temporary_directory (fun scratch =>
      match pass_loop run maxPasses 1 maxPasses with
      | LoopResult.timeoutAbort _ => (ConvOutcome.timeoutFailure, scratch)
      | LoopResult.failed es st n => (ConvOutcome.compilationFailed es st n, scratch)
      | LoopResult.completed n =>
        if !pdfProduced then (ConvOutcome.noOutputProduced, scratch)
        else (ConvOutcome.success n, scratch))

/-! ### Theorems: escaping (C1), classifier (C6, C7) -/

/-- Claim C1 (code bug evidence): the escaping function applies the
substitution table in dict insertion order, with the backslash entry last,
so the backslashes introduced by the earlier substitutions are themselves
rewritten to the textbackslash command and the original special characters
reappear unescaped. On the spec's own test input the output keeps literal
percent, ampersand and dollar characters and contains no backslash-percent
pair at all. -/
theorem escape_latex_double_escapes :
    escape_latex "100% & $5"
        = "100\\textbackslash\x7b\x7d% \\textbackslash\x7b\x7d& \\textbackslash\x7b\x7d$5"
      ∧ contains_sub (escape_latex "100% & $5") "\\%" = false
      ∧ contains_sub (escape_latex "100% & $5") "%" = true
      ∧ contains_sub (escape_latex "100% & $5") "&" = true
      ∧ contains_sub (escape_latex "100% & $5") "$" = true := by
  refine ⟨rfl, by decide, by decide, by decide, by decide⟩

/-- Claim C7: classification is line-local; the all-lines context argument
threaded to the title rule has no effect on the classification of a line
(two-run noninterference over that argument). -/
theorem classify_line_context_noninterference
    (line : String) (ctx₁ ctx₂ : List String) :
    classify_line line ctx₁ = classify_line line ctx₂ := rfl

/-- The foldl of identify_structure appends exactly one block per line whose
stripped form is non-empty. -/
lemma identify_structure_go_length (ctx : List String) (lines : List String) :
    ∀ acc : List (String × String),
      (lines.foldl
        (fun acc line =>
          let l := strip_str line
          if l = "" then acc else acc ++ [classify_line l ctx]) acc).length
        = acc.length + lines.countP (fun line => !(strip_str line == "")) := by
  induction lines with
  | nil => intro acc; simp
  | cons x xs ih =>
    intro acc
    simp only [List.foldl_cons, List.countP_cons]
    by_cases h : strip_str x = ""
    · simp [h, ih]
    · simp [h, ih, List.length_append]
      omega

/-- Claim C6: the classifier produces exactly one content block per
non-empty stripped input line. -/
theorem identify_structure_length (text : String) :
    (identify_structure text).length
      = (split_nl text).countP (fun line => !(strip_str line == "")) := by
  have h := identify_structure_go_length (split_nl text) (split_nl text) []
  simpa [identify_structure] using h

/-! ### Theorems: compiler driver scratch directory (C8) and extension check (C10) -/

/-- Claim C8: whatever the inputs and the outcome (missing file, bad
extension, timeout, compilation failure, missing artifact, or success), the
scratch-directory-exists flag is false after convert_to_pdf returns. -/
theorem scratch_directory_removed
    (file_exists : Bool) (suffix : String) (run : Nat → PassResult)
    (pdfProduced : Bool) (maxPasses : Nat) :
    (convert_to_pdf file_exists suffix run pdfProduced maxPasses).2 = false := by
  unfold convert_to_pdf with_temporary_directory
  split
  · rfl
  · split
    · rfl
    · rfl

/-- Claim C10: for an existing input file the invalid-extension error is
raised exactly when the lower-cased suffix differs from the .tex extension;
in particular upper-case and mixed-case spellings of the extension are
accepted. -/
theorem invalid_extension_iff_lowercase_mismatch :
    (∀ (suffix : String) (run : Nat → PassResult) (pdfProduced : Bool) (maxPasses : Nat),
        (convert_to_pdf true suffix run pdfProduced maxPasses).1
            = ConvOutcome.invalidExtension
          ↔ str_lower suffix ≠ ".tex")
      ∧ str_lower ".TEX" = ".tex" ∧ str_lower ".Tex" = ".tex" := by
  refine ⟨fun suffix run pdfProduced maxPasses => ?_, by decide, by decide⟩
  unfold convert_to_pdf with_temporary_directory
  by_cases h : str_lower suffix = ".tex"
  · simp only [h]
    constructor
    · intro hc
      exfalso
      simp only [Bool.not_true, Bool.false_eq_true, if_false, beq_self_eq_true,
        Bool.not_true] at hc
      rcases hpl : pass_loop run maxPasses 1 maxPasses with n | ⟨es, st, n⟩ | n <;>
        rw [hpl] at hc <;> simp at hc
      cases pdfProduced <;> simp at hc
    · intro hc; exact absurd rfl hc
  · have hb : (str_lower suffix == ".tex") = false := by
      rw [beq_eq_false_iff_ne]; exact h
    simp [hb, h]

/-! ### Theorems: emitter list balance (C2) -/

/-- Two strings whose character data start with a backslash followed by
different characters are not beq-equal. -/
lemma beq_false_of_second_char_ne (s t : String) (c₁ c₂ : Char) (r₁ r₂ : List Char)
    (h₁ : s.data = '\\' :: c₁ :: r₁) (h₂ : t.data = '\\' :: c₂ :: r₂) (hc : c₁ ≠ c₂) :
    (s == t) = false := by
  rw [beq_eq_false_iff_ne]
  intro h
  apply hc
  have hd := congrArg String.data h
  rw [h₁, h₂] at hd
  simp only [List.cons.injEq] at hd
  exact hd.2.1

/-- After the final table entry rewrites every backslash to the
textbackslash command, any remaining backslash is followed by the
character t. -/
lemma replace_backslash_second_char (l : List Char) (c : Char) (cs : List Char)
    (h : replace_all '\\' ("\\textbackslash\x7b\x7d").data l = '\\' :: c :: cs) :
    c = 't' := by
  cases l with
  | nil => simp [replace_all] at h
  | cons x xs =>
    simp only [replace_all] at h
    by_cases hx : x = '\\'
    · rw [if_pos hx] at h
      simp only [List.cons_append, List.cons.injEq] at h
      exact h.2.1.symm
    · rw [if_neg hx, List.singleton_append] at h
      simp only [List.cons.injEq] at h
      exact absurd h.1 hx

/-- Escaped content starting with a backslash continues with the character
t, because the backslash substitution is the last applied. -/
lemma escape_latex_second_char (s : String) (c : Char) (cs : List Char)
    (h : (escape_latex s).data = '\\' :: c :: cs) : c = 't' :=
  replace_backslash_second_char _ c cs h

/-- Escaped content is never the begin-itemize line. -/
@[simp] lemma escaped_beq_begin_itemize (s : String) :
    (escape_latex s == begin_itemize) = false := by
  rw [beq_eq_false_iff_ne]
  intro h
  have hd := congrArg String.data h
  have hb : begin_itemize.data = '\\' :: 'b' :: ("egin\x7bitemize\x7d").data := rfl
  rw [hb] at hd
  exact absurd (escape_latex_second_char s 'b' _ hd) (by decide)

/-- Escaped content is never the end-itemize line. -/
@[simp] lemma escaped_beq_end_itemize (s : String) :
    (escape_latex s == end_itemize) = false := by
  rw [beq_eq_false_iff_ne]
  intro h
  have hd := congrArg String.data h
  have hb : end_itemize.data = '\\' :: 'e' :: ("nd\x7bitemize\x7d").data := rfl
  rw [hb] at hd
  exact absurd (escape_latex_second_char s 'e' _ hd) (by decide)

/-- A title line is never an itemize delimiter. -/
@[simp] lemma title_line_beq_begin (e : String) :
    (("\\title\x7b" ++ e ++ "\x7d") == begin_itemize) = false :=
  beq_false_of_second_char_ne _ _ 't' 'b' _ _ rfl rfl (by decide)

/-- A title line is never an itemize delimiter. -/
@[simp] lemma title_line_beq_end (e : String) :
    (("\\title\x7b" ++ e ++ "\x7d") == end_itemize) = false :=
  beq_false_of_second_char_ne _ _ 't' 'e' _ _ rfl rfl (by decide)

/-- A section line is never an itemize delimiter. -/
@[simp] lemma section_line_beq_begin (e : String) :
    (("\\section\x7b" ++ e ++ "\x7d") == begin_itemize) = false :=
  beq_false_of_second_char_ne _ _ 's' 'b' _ _ rfl rfl (by decide)

/-- A section line is never an itemize delimiter. -/
@[simp] lemma section_line_beq_end (e : String) :
    (("\\section\x7b" ++ e ++ "\x7d") == end_itemize) = false :=
  beq_false_of_second_char_ne _ _ 's' 'e' _ _ rfl rfl (by decide)

/-- A subsection line is never an itemize delimiter. -/
@[simp] lemma subsection_line_beq_begin (e : String) :
    (("\\subsection\x7b" ++ e ++ "\x7d") == begin_itemize) = false :=
  beq_false_of_second_char_ne _ _ 's' 'b' _ _ rfl rfl (by decide)

/-- A subsection line is never an itemize delimiter. -/
@[simp] lemma subsection_line_beq_end (e : String) :
    (("\\subsection\x7b" ++ e ++ "\x7d") == end_itemize) = false :=
  beq_false_of_second_char_ne _ _ 's' 'e' _ _ rfl rfl (by decide)

/-- An item line is never an itemize delimiter. -/
@[simp] lemma item_line_beq_begin (e : String) :
    (("\\item " ++ e) == begin_itemize) = false :=
  beq_false_of_second_char_ne _ _ 'i' 'b' _ _ rfl rfl (by decide)

/-- An item line is never an itemize delimiter. -/
@[simp] lemma item_line_beq_end (e : String) :
    (("\\item " ++ e) == end_itemize) = false :=
  beq_false_of_second_char_ne _ _ 'i' 'e' _ _ rfl rfl (by decide)

/-- The fixed one-off lines emitted by the body are not itemize
delimiters, and the two delimiters differ. -/
@[simp] lemma fixed_lines_beq_itemize :
    (("" : String) == begin_itemize) = false
      ∧ (("" : String) == end_itemize) = false
      ∧ (("\\maketitle" : String) == begin_itemize) = false
      ∧ (("\\maketitle" : String) == end_itemize) = false
      ∧ (begin_itemize == end_itemize) = false
      ∧ (end_itemize == begin_itemize) = false := by decide

/-- Body balance invariant: starting from any list-state flags, the body
emitted for a block sequence contains as many end-itemize lines as
begin-itemize lines plus one per initially open list. -/
lemma emit_body_count (blocks : List (String × String)) : ∀ (it sub : Bool),
    (emit_body blocks it sub).count end_itemize
      = (emit_body blocks it sub).count begin_itemize
        + (if it then 1 else 0) + (if sub then 1 else 0) := by
  induction blocks with
  | nil =>
    intro it sub
    cases it <;> cases sub <;>
      simp [emit_body, List.count_cons, List.count_append, fixed_lines_beq_itemize.2.2.2.2.1,
        fixed_lines_beq_itemize.2.2.2.2.2]
  | cons b rest ih =>
    intro it sub
    obtain ⟨ty, content⟩ := b
    simp only [emit_body]
    by_cases h1 : ty = "title"
    · cases it <;> cases sub <;>
        simp [h1, List.count_cons, List.count_append, ih, fixed_lines_beq_itemize.1,
          fixed_lines_beq_itemize.2.1, fixed_lines_beq_itemize.2.2.1,
          fixed_lines_beq_itemize.2.2.2.1]
    · by_cases h2 : ty = "section"
      · cases it <;> cases sub <;>
          simp [h1, h2, List.count_cons, List.count_append, ih, fixed_lines_beq_itemize.1,
            fixed_lines_beq_itemize.2.1, fixed_lines_beq_itemize.2.2.2.2.1,
            fixed_lines_beq_itemize.2.2.2.2.2] <;> omega
      · by_cases h3 : ty = "subsection"
        · cases it <;> cases sub <;>
            simp [h1, h2, h3, List.count_cons, List.count_append, ih, fixed_lines_beq_itemize.1,
              fixed_lines_beq_itemize.2.1, fixed_lines_beq_itemize.2.2.2.2.1,
              fixed_lines_beq_itemize.2.2.2.2.2] <;> omega
        · by_cases h4 : ty = "bullet1"
          · cases it <;> cases sub <;>
              simp [h1, h2, h3, h4, List.count_cons, List.count_append, ih,
                fixed_lines_beq_itemize.2.2.2.2.1, fixed_lines_beq_itemize.2.2.2.2.2] <;> omega
          · by_cases h5 : ty = "bullet2"
            · cases it <;> cases sub <;>
                simp [h1, h2, h3, h4, h5, List.count_cons, List.count_append, ih,
                  fixed_lines_beq_itemize.2.2.2.2.1, fixed_lines_beq_itemize.2.2.2.2.2] <;> omega
            · by_cases h6 : ty = "paragraph"
              · cases it <;> cases sub <;>
                  simp [h1, h2, h3, h4, h5, h6, List.count_cons, List.count_append, ih,
                    fixed_lines_beq_itemize.1, fixed_lines_beq_itemize.2.1,
                    fixed_lines_beq_itemize.2.2.2.2.1, fixed_lines_beq_itemize.2.2.2.2.2] <;> omega
              · simp [h1, h2, h3, h4, h5, h6, ih]

/-- Claim C2: for every block sequence the emitted document line list is
itemize-balanced: every begin-itemize line has a matching end-itemize line,
so the document never terminates with an unclosed primary or secondary
list. -/
theorem convert_to_latex_itemize_balanced (blocks : List (String × String)) :
    (convert_to_latex_lines blocks).count begin_itemize
      = (convert_to_latex_lines blocks).count end_itemize := by
  have h := emit_body_count blocks false false
  simp only [Bool.false_eq_true, if_false] at h
  have hh1 : latex_header.count begin_itemize = 0 := by decide
  have hh2 : latex_header.count end_itemize = 0 := by decide
  have hf1 : (["", "\\end\x7bdocument\x7d"] : List String).count begin_itemize = 0 := by decide
  have hf2 : (["", "\\end\x7bdocument\x7d"] : List String).count end_itemize = 0 := by decide
  simp only [convert_to_latex_lines, List.count_append, hh1, hh2, hf1, hf2] at *
  omega

/-! ### Theorems: log parsing (C5, C9) -/

/-- The warnings side of the scanner keeps exactly the stripped lines that
are warning lines and not error lines, in order. -/
lemma parse_from_snd (lines : List String) :
    ∀ (rest : List String) (i : Nat),
      (parse_errors_from lines i rest).2
        = (rest.filter (fun l => !is_error_line l && is_warning_line l)).map strip_str := by
  intro rest
  induction rest with
  | nil => intro i; simp [parse_errors_from]
  | cons x xs ih =>
    intro i
    simp only [parse_errors_from, List.filter_cons]
    cases hx : is_error_line x <;> cases hw : is_warning_line x <;>
      simp [hx, hw, ih]

/-- The errors side of the scanner has exactly one block per error line. -/
lemma parse_from_fst_length (lines : List String) :
    ∀ (rest : List String) (i : Nat),
      (parse_errors_from lines i rest).1.length
        = (rest.filter is_error_line).length := by
  intro rest
  induction rest with
  | nil => intro i; simp [parse_errors_from]
  | cons x xs ih =>
    intro i
    simp only [parse_errors_from, List.filter_cons]
    cases hx : is_error_line x <;> cases hw : is_warning_line x <;>
      simp [hx, hw, ih]

/-- Claim C9: in log parsing each line feeds at most one of the two lists
and error detection takes precedence: the warnings are exactly the stripped
non-error warning lines, and the error blocks are exactly one per error
line, so an error line is never also appended to the warnings even when it
contains a warning marker. -/
theorem parse_latex_errors_precedence (log_content : String) :
    (parse_latex_errors log_content).2
        = ((split_nl log_content).filter
            (fun l => !is_error_line l && is_warning_line l)).map strip_str
      ∧ (parse_latex_errors log_content).1.length
        = ((split_nl log_content).filter is_error_line).length :=
  ⟨parse_from_snd (split_nl log_content) (split_nl log_content) 0,
   parse_from_fst_length (split_nl log_content) (split_nl log_content) 0⟩

/-- Every error line contributes its context block to the collected error
list. -/
lemma parse_from_fst_mem (lines : List String) :
    ∀ (rest : List String) (i k : Nat) (hk : k < rest.length),
      is_error_line (rest.get ⟨k, hk⟩) = true →
      error_block lines (i + k) ∈ (parse_errors_from lines i rest).1 := by
  intro rest
  induction rest with
  | nil => intro i k hk herr; simp at hk
  | cons x xs ih =>
    intro i k hk herr
    cases k with
    | zero =>
      simp only [List.get] at herr
      simp only [parse_errors_from, herr, Nat.add_zero, if_true]
      exact List.mem_cons_self _ _
    | succ k' =>
      have herr' : is_error_line (xs.get ⟨k', Nat.lt_of_succ_lt_succ hk⟩) = true := herr
      have hmem := ih (i + 1) k' (Nat.lt_of_succ_lt_succ hk) herr'
      have harith : i + (k' + 1) = (i + 1) + k' := by omega
      rw [harith]
      simp only [parse_errors_from]
      cases hx : is_error_line x
      · cases hw : is_warning_line x <;> simp [hx, hw] <;> exact hmem
      · simp only [hx, if_true]
        exact List.mem_cons_of_mem _ hmem

/-- Every collected error block is the context block of some error line. -/
lemma parse_from_fst_all (lines : List String) :
    ∀ (rest : List String) (i : Nat) (b : String),
      b ∈ (parse_errors_from lines i rest).1 →
      ∃ k, ∃ hk : k < rest.length,
        is_error_line (rest.get ⟨k, hk⟩) = true ∧ b = error_block lines (i + k) := by
  intro rest
  induction rest with
  | nil => intro i b hb; simp [parse_errors_from] at hb
  | cons x xs ih =>
    intro i b hb
    simp only [parse_errors_from] at hb
    cases hx : is_error_line x
    · cases hw : is_warning_line x <;> simp only [hx, hw, if_false, if_true] at hb
      all_goals
        obtain ⟨k, hk, hke, hkb⟩ := ih (i + 1) b hb
      all_goals
        exact ⟨k + 1, Nat.succ_lt_succ hk, hke, by rw [hkb]; congr 1; omega⟩
    · simp only [hx, if_true, List.mem_cons] at hb
      rcases hb with rfl | hb
      · exact ⟨0, Nat.succ_pos _, hx, by rw [Nat.add_zero]⟩
      · obtain ⟨k, hk, hke, hkb⟩ := ih (i + 1) b hb
        exact ⟨k + 1, Nat.succ_lt_succ hk, hke, by rw [hkb]; congr 1; omega⟩

/-- The context slice of an error line decomposes into its leading lines,
the triggering line, and its trailing lines. -/
lemma error_block_decomposition (lines : List String) (i : Nat) (h : i < lines.length) :
    error_block lines i
      = join_nl (((lines.take i).drop (i - 2))
          ++ lines.get ⟨i, h⟩ :: ((lines.drop (i + 1)).take 2)) := by
  rw [show error_block lines i
      = join_nl ((lines.drop (i - 2)).take (min lines.length (i + 3) - (i - 2))) from rfl]
  congr 1
  have hsplit : min lines.length (i + 3) - (i - 2)
      = (i - (i - 2)) + (min lines.length (i + 3) - i) := by omega
  rw [hsplit, List.take_add]
  congr 1
  · rw [List.drop_take]
  · rw [List.drop_drop]
    have h2 : (i - 2) + (i - (i - 2)) = i := by omega
    rw [h2, List.drop_eq_get_cons h]
    have h3 : min lines.length (i + 3) - i = (min lines.length (i + 3) - i - 1) + 1 := by
      omega
    rw [h3, List.take_succ_cons]
    congr 1
    rw [List.take_eq_take]
    simp only [List.length_drop]
    omega

/-- A member line of a joined context is a contiguous substring of the
joined text. -/
lemma mem_join_nl_infix (a : String) : ∀ (ctx : List String), a ∈ ctx →
    a.data <:+: (join_nl ctx).data := by
  intro ctx
  induction ctx with
  | nil => intro h; simp at h
  | cons l ls ih =>
    intro h
    rcases List.mem_cons.1 h with rfl | hmem
    · cases ls with
      | nil => exact List.infix_refl _
      | cons l2 ls2 =>
        refine ⟨[], '\n' :: (join_nl (l2 :: ls2)).data, ?_⟩
        simp [join_nl]
    · cases ls with
      | nil => simp at hmem
      | cons l2 ls2 =>
        obtain ⟨s, t, hst⟩ := ih hmem
        refine ⟨l.data ++ '\n' :: s, t, ?_⟩
        simp only [join_nl, String.data_append, ← hst]
        simp

/-- The triggering line occurs inside its own error block. -/
lemma get_infix_error_block (lines : List String) (i : Nat) (h : i < lines.length) :
    (lines.get ⟨i, h⟩).data <:+: (error_block lines i).data := by
  rw [error_block_decomposition lines i h]
  exact mem_join_nl_infix _ _ List.mem_append_cons_self

/-- Claim C5 counterexample: when the fatal line is the first line of the
log there are no leading context lines at all, so the captured block is the
single triggering line and the claimed two lines of leading context do not
exist. -/
theorem error_block_single_line_counterexample :
    (parse_latex_errors "! Undefined control sequence").1
        = ["! Undefined control sequence"]
      ∧ ¬ (∀ b ∈ (parse_latex_errors "! Undefined control sequence").1,
            3 ≤ (split_nl b).length) := by decide

/-- Claim C5 (amended): every captured error block is the context slice of
some detected fatal line, consisting of up to two leading context lines
(exactly the minimum of 2 and the trigger index), the triggering line, and
up to two trailing lines. -/
theorem error_block_context_shape (log_content : String) (b : String)
    (hb : b ∈ (parse_latex_errors log_content).1) :
    ∃ i, ∃ h : i < (split_nl log_content).length,
      is_error_line ((split_nl log_content).get ⟨i, h⟩) = true
      ∧ b = join_nl (((split_nl log_content).take i).drop (i - 2)
            ++ ((split_nl log_content).get ⟨i, h⟩)
              :: (((split_nl log_content).drop (i + 1)).take 2))
      ∧ (((split_nl log_content).take i).drop (i - 2)).length = min 2 i
      ∧ (((split_nl log_content).drop (i + 1)).take 2).length
          = min 2 ((split_nl log_content).length - (i + 1)) := by
  obtain ⟨k, hk, hke, hkb⟩ :=
    parse_from_fst_all (split_nl log_content) (split_nl log_content) 0 b hb
  rw [Nat.zero_add] at hkb
  refine ⟨k, hk, hke, ?_, ?_, ?_⟩
  · rw [hkb]
    exact error_block_decomposition (split_nl log_content) k hk
  · simp only [List.length_drop, List.length_take]
    omega
  · simp only [List.length_take, List.length_drop]

/-- Witness for the amended block-shape theorem on a concrete log whose
fatal line sits at index 3, with two leading and two trailing context
lines. -/
theorem error_block_context_shape_witness :
    ∃ i, ∃ h : i < (split_nl "L1\nL2\nL3\n! boom\nT1\nT2\nT3").length,
      is_error_line ((split_nl "L1\nL2\nL3\n! boom\nT1\nT2\nT3").get ⟨i, h⟩) = true
      ∧ "L2\nL3\n! boom\nT1\nT2"
          = join_nl (((split_nl "L1\nL2\nL3\n! boom\nT1\nT2\nT3").take i).drop (i - 2)
            ++ ((split_nl "L1\nL2\nL3\n! boom\nT1\nT2\nT3").get ⟨i, h⟩)
              :: (((split_nl "L1\nL2\nL3\n! boom\nT1\nT2\nT3").drop (i + 1)).take 2))
      ∧ (((split_nl "L1\nL2\nL3\n! boom\nT1\nT2\nT3").take i).drop (i - 2)).length = min 2 i
      ∧ (((split_nl "L1\nL2\nL3\n! boom\nT1\nT2\nT3").drop (i + 1)).take 2).length
          = min 2 ((split_nl "L1\nL2\nL3\n! boom\nT1\nT2\nT3").length - (i + 1)) :=
  error_block_context_shape "L1\nL2\nL3\n! boom\nT1\nT2\nT3" "L2\nL3\n! boom\nT1\nT2"
    (by decide)

/-! ### Theorems: the multi-pass loop (C3, C4) -/

/-- Advancing the pass loop: while every earlier pass exits zero and asks
for a rerun, the loop state reaches pass k with the matching fuel. -/
lemma pass_loop_advance (run : Nat → PassResult) (maxPasses : Nat) :
    ∀ (fuel passNum k : Nat), passNum + fuel = maxPasses + 1 → passNum ≤ k →
      k ≤ maxPasses →
      (∀ j, passNum ≤ j → j < k →
        ∃ s l, run j = PassResult.ran 0 s l
          ∧ needs_multiple_passes (l.getD "") = true) →
      pass_loop run maxPasses passNum fuel
        = pass_loop run maxPasses k (maxPasses + 1 - k) := by
  intro fuel
  induction fuel with
  | zero =>
    intro passNum k h1 h2 h3 _
    omega
  | succ fuel ih =>
    intro passNum k h1 h2 h3 hprev
    rcases Nat.eq_or_lt_of_le h2 with heq | hlt
    · subst heq
      have hfuel : maxPasses + 1 - passNum = fuel + 1 := by omega
      rw [hfuel]
    · obtain ⟨s, l, hrun, hneeds⟩ := hprev passNum (Nat.le_refl _) hlt
      have hstep : pass_loop run maxPasses passNum (fuel + 1)
          = pass_loop run maxPasses (passNum + 1) fuel := by
        simp only [pass_loop, hrun]
        have hlt' : passNum < maxPasses := by omega
        simp [hneeds, hlt']
      rw [hstep]
      exact ih (passNum + 1) k (by omega) (by omega) h3
        (fun j hj1 hj2 => hprev j (by omega) hj2)

/-- Reduction of convert_to_pdf for an existing .tex input to the outcome
of its pass loop. -/
lemma convert_to_pdf_loop (run : Nat → PassResult) (pdfProduced : Bool)
    (maxPasses : Nat) :
    convert_to_pdf true ".tex" run pdfProduced maxPasses
      = ((match pass_loop run maxPasses 1 maxPasses with
          | LoopResult.timeoutAbort _ => (ConvOutcome.timeoutFailure, true)
          | LoopResult.failed es st n => (ConvOutcome.compilationFailed es st n, true)
          | LoopResult.completed n =>
            if !pdfProduced then (ConvOutcome.noOutputProduced, true)
            else (ConvOutcome.success n, true)).1, false) := by
  have hs : (str_lower ".tex" == ".tex") = true := rfl
  simp only [convert_to_pdf, with_temporary_directory, hs, Bool.not_true,
    Bool.false_eq_true, if_false]

/-- Claim C3: whenever the loop reaches a pass whose process exits with a
nonzero code, the whole operation aborts at that pass with the
compilation-failed outcome carrying the error blocks parsed from that
pass's log and its raw stderr text, and no further passes run; moreover
every log line starting with an exclamation mark or containing Error: makes
the parsed error-block list non-empty and appears inside one of its
blocks. -/
theorem nonzero_exit_aborts_with_parsed_errors
    (run : Nat → PassResult) (maxPasses k : Nat) (pdfProduced : Bool)
    (rc : Int) (st : String) (lg : Option String)
    (hk1 : 1 ≤ k) (hk2 : k ≤ maxPasses)
    (hprev : ∀ j, 1 ≤ j → j < k →
      ∃ s l, run j = PassResult.ran 0 s l ∧ needs_multiple_passes (l.getD "") = true)
    (hk : run k = PassResult.ran rc st lg) (hrc : rc ≠ 0) :
    (convert_to_pdf true ".tex" run pdfProduced maxPasses).1
        = ConvOutcome.compilationFailed (parse_latex_errors (lg.getD "")).1 st k
      ∧ ∀ i (h : i < (split_nl (lg.getD "")).length),
          is_error_line ((split_nl (lg.getD "")).get ⟨i, h⟩) = true →
          (parse_latex_errors (lg.getD "")).1 ≠ []
            ∧ ∃ b ∈ (parse_latex_errors (lg.getD "")).1,
                ((split_nl (lg.getD "")).get ⟨i, h⟩).data <:+: b.data := by
  constructor
  · have hadv := pass_loop_advance run maxPasses maxPasses 1 k (by omega) hk1 hk2
      (fun j hj1 hj2 => hprev j hj1 hj2)
    obtain ⟨m, hm⟩ : ∃ m, maxPasses + 1 - k = m + 1 := ⟨maxPasses - k, by omega⟩
    have hloop : pass_loop run maxPasses 1 maxPasses
        = LoopResult.failed (parse_latex_errors (lg.getD "")).1 st k := by
      rw [hadv, hm]
      simp only [pass_loop, hk]
      simp [hrc]
    rw [convert_to_pdf_loop, hloop]
  · intro i h herr
    have hmem : error_block (split_nl (lg.getD "")) i
        ∈ (parse_latex_errors (lg.getD "")).1 := by
      have := parse_from_fst_mem (split_nl (lg.getD "")) (split_nl (lg.getD "")) 0 i h herr
      simpa using this
    exact ⟨List.ne_nil_of_mem hmem,
      ⟨error_block (split_nl (lg.getD "")) i, hmem, get_infix_error_block _ i h⟩⟩

/-- Witness: a first pass exiting 1 with an undefined-control-sequence log
aborts at pass 1 with that line captured in a non-empty error-block
list. -/
theorem nonzero_exit_aborts_witness :
    (convert_to_pdf true ".tex"
        (fun _ => PassResult.ran 1 "boom" (some "! Undefined control sequence\nl.5"))
        true 3).1
      = ConvOutcome.compilationFailed
          (parse_latex_errors "! Undefined control sequence\nl.5").1 "boom" 1
    ∧ ((parse_latex_errors "! Undefined control sequence\nl.5").1 ≠ []
        ∧ ∃ b ∈ (parse_latex_errors "! Undefined control sequence\nl.5").1,
            ("! Undefined control sequence").data <:+: b.data) := by
  have h := nonzero_exit_aborts_with_parsed_errors
    (fun _ => PassResult.ran 1 "boom" (some "! Undefined control sequence\nl.5"))
    3 1 true 1 "boom" (some "! Undefined control sequence\nl.5")
    (by omega) (by omega)
    (fun j hj1 hj2 => absurd hj2 (by omega))
    rfl (by decide)
  exact ⟨h.1, h.2 0 (by decide) (by decide)⟩

/-- Claim C4: after zero-exit passes the loop continues exactly while a
rerun indicator is present and passes remain: if passes 1..k-1 exit zero
with a rerun indicator and pass k exits zero with either no rerun indicator
or the pass budget exhausted, the compiler performs exactly k passes and
returns success. -/
theorem zero_exit_loop_stops_with_success
    (run : Nat → PassResult) (maxPasses k : Nat)
    (hk1 : 1 ≤ k) (hk2 : k ≤ maxPasses)
    (hprev : ∀ j, 1 ≤ j → j < k →
      ∃ s l, run j = PassResult.ran 0 s l ∧ needs_multiple_passes (l.getD "") = true)
    (hlast : ∃ s l, run k = PassResult.ran 0 s l
      ∧ (needs_multiple_passes (l.getD "") = false ∨ k = maxPasses)) :
    (convert_to_pdf true ".tex" run true maxPasses).1 = ConvOutcome.success k := by
  obtain ⟨s, l, hrun, hstop⟩ := hlast
  have hadv := pass_loop_advance run maxPasses maxPasses 1 k (by omega) hk1 hk2
    (fun j hj1 hj2 => hprev j hj1 hj2)
  obtain ⟨m, hm⟩ : ∃ m, maxPasses + 1 - k = m + 1 := ⟨maxPasses - k, by omega⟩
  have hloop : pass_loop run maxPasses 1 maxPasses = LoopResult.completed k := by
    rw [hadv, hm]
    simp only [pass_loop, hrun]
    rcases hstop with hstop | hstop
    · simp [hstop]
    · have : ¬ (k < maxPasses) := by omega
      simp [this]
  rw [convert_to_pdf_loop, hloop]
  rfl

/-- Witness: a first pass exiting zero with a rerun indicator in the log
and a second pass exiting zero without one give exactly two passes and
success, with three passes allowed. -/
theorem zero_exit_loop_stops_witness :
    (convert_to_pdf true ".tex"
        (fun n => if n = 1 then
            PassResult.ran 0 "" (some "LaTeX Warning: Rerun to get cross-references right")
          else PassResult.ran 0 "" (some ""))
        true 3).1 = ConvOutcome.success 2 :=
  zero_exit_loop_stops_with_success
    (fun n => if n = 1 then
        PassResult.ran 0 "" (some "LaTeX Warning: Rerun to get cross-references right")
      else PassResult.ran 0 "" (some ""))
    3 2 (by omega) (by omega)
    (fun j hj1 hj2 => by
      have hj : j = 1 := by omega
      subst hj
      exact ⟨"", some "LaTeX Warning: Rerun to get cross-references right", rfl, by decide⟩)
    ⟨"", some "", rfl, Or.inl (by decide)⟩
